import Mathlib

/-!
Verification of the authentication core of the DevExy backend.

The development shallowly embeds the Python sources under src/auth
(router.py, dependencies.py, utils.py, schemas.py) and src/core/config.py.
External libraries are modelled by executable Lean functions that follow
their documented semantics:

  - passlib bcrypt hashing: the digest is an injective executable
    function of rounds, salt and password; the salt (random at run time)
    is an explicit parameter.  CryptContext.verify raises UnknownHashError
    on a string that does not parse as a bcrypt hash.
  - python-jose JWT: a token is a payload body, a dot, and a signature
    that is a function of algorithm, secret and body (the model of HMAC).
    jose verifies the signature first, then checks the exp claim against
    the current clock, raising ExpiredSignatureError when it has passed.
    The wire format here is an injective encoding chosen for the model
    (the real one is base64 JSON; any injective encoding is equivalent
    at this level).  Clocks are explicit Nat parameters (epoch seconds).
  - FastAPI HTTPBearer with auto error: a request without a usable
    Authorization header is rejected with status 403 and detail
    Not authenticated before the dependent function body runs; otherwise
    the body receives the bearer credentials string.

Databases are lists of account rows; SQLAlchemy first() is List.find?.
-/

/-! ## Decimal digits: executable rendering and parsing with roundtrip -/

/-- The character of a decimal digit below ten. -/
def digChar (d : Nat) : Char :=
  if d = 0 then '0' else if d = 1 then '1' else if d = 2 then '2'
  else if d = 3 then '3' else if d = 4 then '4' else if d = 5 then '5'
  else if d = 6 then '6' else if d = 7 then '7' else if d = 8 then '8'
  else if d = 9 then '9' else '0'

/-- The value of a decimal digit character, none for any other character. -/
def digitVal (c : Char) : Option Nat :=
  if c = '0' then some 0 else if c = '1' then some 1 else if c = '2' then some 2
  else if c = '3' then some 3 else if c = '4' then some 4 else if c = '5' then some 5
  else if c = '6' then some 6 else if c = '7' then some 7 else if c = '8' then some 8
  else if c = '9' then some 9 else none

/-- Least-significant-first digit list of a number; structural on fuel so that
closed terms reduce in the kernel. -/
def digitsRevAux : Nat → Nat → List Char
  | 0, _ => []
  | fuel + 1, n => if n = 0 then [] else digChar (n % 10) :: digitsRevAux fuel (n / 10)

/-- Least-significant-first digit list of a number. -/
def digitsRevNat (n : Nat) : List Char := digitsRevAux n n

/-- Parse a least-significant-first digit list; none when a character is not
a digit. -/
def readRev : List Char → Option Nat
  | [] => some 0
  | c :: cs =>
    match digitVal c with
    | none => none
    | some d =>
      match readRev cs with
      | none => none
      | some v => some (d + 10 * v)

/-- Most-significant-first decimal rendering of a Nat, never empty. -/
def natStr (n : Nat) : List Char := if n = 0 then ['0'] else (digitsRevNat n).reverse

/-- Parse a nonempty most-significant-first digit list. -/
def readDigitsMSD (l : List Char) : Option Nat :=
  match l with
  | [] => none
  | _ :: _ => readRev l.reverse

theorem digitVal_digChar (d : Nat) (h : d < 10) : digitVal (digChar d) = some d := by
  interval_cases d <;> decide

theorem digChar_not_special (d : Nat) (h : d < 10) :
    digChar d ≠ '-' ∧ digChar d ≠ '+' ∧ digChar d ≠ '.' ∧ digChar d ≠ '|' ∧
      digChar d ≠ '$' := by
  interval_cases d <;> decide

theorem readRev_digitsRevAux (fuel : Nat) :
    ∀ n, n ≤ fuel → readRev (digitsRevAux fuel n) = some n := by
  induction fuel with
  | zero =>
    intro n h
    have h0 : n = 0 := Nat.le_zero.mp h
    subst h0
    rfl
  | succ f ih =>
    intro n h
    by_cases h0 : n = 0
    · subst h0
      rfl
    · have h10 : n % 10 < 10 := Nat.mod_lt _ (by omega)
      have hdiv : n / 10 ≤ f := by
        have := Nat.div_lt_self (Nat.pos_of_ne_zero h0) (show 1 < 10 by omega)
        omega
      simp only [digitsRevAux, if_neg h0, readRev]
      rw [digitVal_digChar _ h10, ih _ hdiv]
      have : n % 10 + 10 * (n / 10) = n := by omega
      simp [this]

theorem readRev_digitsRevNat (n : Nat) : readRev (digitsRevNat n) = some n :=
  readRev_digitsRevAux n n (Nat.le_refl n)

theorem mem_digitsRevAux (fuel : Nat) :
    ∀ n c, c ∈ digitsRevAux fuel n → ∃ d, d < 10 ∧ c = digChar d := by
  induction fuel with
  | zero => intro n c hc; simp [digitsRevAux] at hc
  | succ f ih =>
    intro n c hc
    by_cases h0 : n = 0
    · subst h0; simp [digitsRevAux] at hc
    · simp only [digitsRevAux, if_neg h0, List.mem_cons] at hc
      rcases hc with hc | hc
      · exact ⟨n % 10, Nat.mod_lt _ (by omega), hc⟩
      · exact ih _ _ hc

theorem natStr_ne_nil (n : Nat) : natStr n ≠ [] := by
  by_cases h0 : n = 0
  · subst h0; simp [natStr]
  · simp only [natStr, if_neg h0]
    intro habs
    have : digitsRevNat n = [] := by
      have := congrArg List.reverse habs
      simpa using this
    obtain ⟨m, hm⟩ := Nat.exists_eq_succ_of_ne_zero h0
    subst hm
    simp [digitsRevNat, digitsRevAux] at this

theorem mem_natStr (n : Nat) (c : Char) (hc : c ∈ natStr n) :
    ∃ d, d < 10 ∧ c = digChar d := by
  by_cases h0 : n = 0
  · subst h0
    simp [natStr] at hc
    exact ⟨0, by omega, by simpa [digChar] using hc⟩
  · simp only [natStr, if_neg h0, List.mem_reverse] at hc
    exact mem_digitsRevAux n n c hc

theorem readDigitsMSD_natStr (n : Nat) : readDigitsMSD (natStr n) = some n := by
  have hne := natStr_ne_nil n
  by_cases h0 : n = 0
  · subst h0; rfl
  · simp only [natStr, if_neg h0] at hne ⊢
    cases hrev : (digitsRevNat n).reverse with
    | nil => exact absurd hrev hne
    | cons c cs =>
      rw [← hrev]
      show readDigitsMSD (digitsRevNat n).reverse = some n
      have : readDigitsMSD (digitsRevNat n).reverse = readRev (digitsRevNat n).reverse.reverse := by
        rw [hrev]; rfl
      rw [this, List.reverse_reverse]
      exact readRev_digitsRevNat n

/-! ## Python str and int on integers -/

/-- Model of Python str on an int: sign then decimal digits. -/
def pyStr (i : Int) : String :=
  if i < 0 then String.mk ('-' :: natStr i.natAbs) else String.mk (natStr i.natAbs)

/-- Model of Python int on a string: optional sign then nonempty digits,
none models the ValueError raise.  (Surrounding whitespace and underscore
grouping, which Python also accepts, are not exercised by this program and
are left out.) -/
def pyIntOfString (s : String) : Option Int :=
  match s.data with
  | [] => none
  | c :: cs =>
    if c = '-' then (readDigitsMSD cs).map (fun n => -(n : Int))
    else if c = '+' then (readDigitsMSD cs).map (fun n => (n : Int))
    else (readDigitsMSD (c :: cs)).map (fun n => (n : Int))

theorem pyIntOfString_mk_cons (c : Char) (cs : List Char) :
    pyIntOfString (String.mk (c :: cs)) =
      (if c = '-' then (readDigitsMSD cs).map (fun n => -(n : Int))
       else if c = '+' then (readDigitsMSD cs).map (fun n => (n : Int))
       else (readDigitsMSD (c :: cs)).map (fun n => (n : Int))) := rfl

theorem pyIntOfString_pyStr (i : Int) : pyIntOfString (pyStr i) = some i := by
  by_cases hneg : i < 0
  · rw [pyStr, if_pos hneg, pyIntOfString_mk_cons, if_pos rfl, readDigitsMSD_natStr]
    show some (-(i.natAbs : Int)) = some i
    congr 1
    omega
  · rw [pyStr, if_neg hneg]
    cases hns : natStr i.natAbs with
    | nil => exact absurd hns (natStr_ne_nil _)
    | cons c cs =>
      have hc : c ∈ natStr i.natAbs := by rw [hns]; exact List.mem_cons_self c cs
      obtain ⟨d, hd, hcd⟩ := mem_natStr _ _ hc
      obtain ⟨hd1, hd2, -⟩ := digChar_not_special d hd
      subst hcd
      rw [pyIntOfString_mk_cons, if_neg hd1, if_neg hd2, ← hns, readDigitsMSD_natStr]
      show some ((i.natAbs : Int)) = some i
      congr 1
      omega

/-! ## Escaping for the payload wire encoding -/

/-- Escape a character so the output never contains a raw dot or bar. -/
def escChar (c : Char) : List Char :=
  if c = '\\' then ['\\', 'b']
  else if c = '.' then ['\\', 'd']
  else if c = '|' then ['\\', 'p']
  else [c]

/-- Escape a character list. -/
def esc : List Char → List Char
  | [] => []
  | c :: cs => escChar c ++ esc cs

/-- Invert the escaping; none on a dangling or unknown escape. -/
def unesc : List Char → Option (List Char)
  | [] => some []
  | c :: cs =>
    if c = '\\' then
      match cs with
      | [] => none
      | d :: cs2 =>
        if d = 'b' then (unesc cs2).map (fun l => '\\' :: l)
        else if d = 'd' then (unesc cs2).map (fun l => '.' :: l)
        else if d = 'p' then (unesc cs2).map (fun l => '|' :: l)
        else none
    else (unesc cs).map (fun l => c :: l)

theorem unesc_esc (l : List Char) : unesc (esc l) = some l := by
  induction l with
  | nil => rfl
  | cons c cs ih =>
    by_cases h1 : c = '\\'
    · subst h1
      simp [esc, escChar, unesc, ih]
    · by_cases h2 : c = '.'
      · subst h2
        simp [esc, escChar, unesc, ih]
      · by_cases h3 : c = '|'
        · subst h3
          simp [esc, escChar, unesc, ih]
        · simp only [esc, escChar]
          rw [if_neg h1, if_neg h2, if_neg h3]
          simp only [List.cons_append, List.nil_append]
          rw [unesc.eq_def]
          dsimp only
          rw [if_neg h1, ih]
          rfl

theorem mem_escChar (y c : Char) (hy : y ∈ escChar c) :
    y = '\\' ∨ y = 'b' ∨ y = 'd' ∨ y = 'p' ∨ (y = c ∧ c ≠ '\\' ∧ c ≠ '.' ∧ c ≠ '|') := by
  by_cases h1 : c = '\\'
  · subst h1
    simp [escChar] at hy
    tauto
  · by_cases h2 : c = '.'
    · subst h2
      simp [escChar] at hy
      tauto
    · by_cases h3 : c = '|'
      · subst h3
        simp [escChar] at hy
        tauto
      · simp [escChar, h1, h2, h3] at hy
        exact Or.inr (Or.inr (Or.inr (Or.inr ⟨hy, h1, h2, h3⟩)))

theorem dot_not_mem_esc (l : List Char) : '.' ∉ esc l := by
  induction l with
  | nil => simp [esc]
  | cons c cs ih =>
    simp only [esc, List.mem_append]
    rintro (h | h)
    · rcases mem_escChar _ _ h with h | h | h | h | ⟨he, -, hne, -⟩
      · exact absurd h (by decide)
      · exact absurd h (by decide)
      · exact absurd h (by decide)
      · exact absurd h (by decide)
      · exact hne he.symm
    · exact ih h

theorem bar_not_mem_esc (l : List Char) : '|' ∉ esc l := by
  induction l with
  | nil => simp [esc]
  | cons c cs ih =>
    simp only [esc, List.mem_append]
    rintro (h | h)
    · rcases mem_escChar _ _ h with h | h | h | h | ⟨he, -, -, hne⟩
      · exact absurd h (by decide)
      · exact absurd h (by decide)
      · exact absurd h (by decide)
      · exact absurd h (by decide)
      · exact hne he.symm
    · exact ih h

/-! ## Splitting a list at the first occurrence of a separator -/

/-- Split at the first occurrence of sep; none when sep does not occur. -/
def splitFirst (sep : Char) : List Char → Option (List Char × List Char)
  | [] => none
  | c :: cs =>
    if c = sep then some ([], cs)
    else (splitFirst sep cs).map (fun p => (c :: p.1, p.2))

theorem splitFirst_append (sep : Char) (l1 l2 : List Char) (h : sep ∉ l1) :
    splitFirst sep (l1 ++ sep :: l2) = some (l1, l2) := by
  induction l1 with
  | nil => simp [splitFirst]
  | cons c cs ih =>
    have hc : c ≠ sep := fun habs => h (habs ▸ List.mem_cons_self c cs)
    have hcs : sep ∉ cs := fun habs => h (List.mem_cons_of_mem c habs)
    simp [splitFirst, hc, ih hcs]

/-! ## JWT model (python-jose) -/

/-- A subject claim value: the payloads this program handles carry either a
JSON string or a JSON integer in the sub field. -/
inductive SubVal where
  | str (s : String)
  | num (i : Int)
deriving DecidableEq

/-- A token payload: optional sub claim and optional exp claim (epoch
seconds), the two claims this program reads or writes. -/
structure Payload where
  sub : Option SubVal
  exp : Option Nat
deriving DecidableEq

/-- jose error classification: ExpiredSignatureError versus every other
JWTError. -/
inductive JWTError where
  | invalid
  | expired
deriving DecidableEq

/-- Wire encoding of the sub claim.  Escaped, so the output never holds a
raw dot or bar. -/
def encodeSub : Option SubVal → List Char
  | none => ['n']
  | some (SubVal.str s) => 's' :: esc s.data
  | some (SubVal.num i) =>
    if i < 0 then 'm' :: digitsRevNat i.natAbs else 'i' :: digitsRevNat i.natAbs

/-- Wire encoding of the exp claim. -/
def encodeExp : Option Nat → List Char
  | none => ['n']
  | some e => 'e' :: digitsRevNat e

/-- Wire encoding of a payload: sub field, bar, exp field. -/
def encodePayload (p : Payload) : List Char := encodeSub p.sub ++ '|' :: encodeExp p.exp

/-- Parse the sub field. -/
def parseSub (l : List Char) : Option (Option SubVal) :=
  match l with
  | [] => none
  | c :: rest =>
    if c = 'n' then (if rest = [] then some none else none)
    else if c = 's' then (unesc rest).map (fun cs => some (SubVal.str (String.mk cs)))
    else if c = 'i' then (readRev rest).map (fun n => some (SubVal.num (n : Int)))
    else if c = 'm' then (readRev rest).map (fun n => some (SubVal.num (-(n : Int))))
    else none

/-- Parse the exp field. -/
def parseExp (l : List Char) : Option (Option Nat) :=
  match l with
  | [] => none
  | c :: rest =>
    if c = 'n' then (if rest = [] then some none else none)
    else if c = 'e' then (readRev rest).map some
    else none

/-- Parse a payload body. -/
def parsePayload (l : List Char) : Option Payload :=
  match splitFirst '|' l with
  | none => none
  | some (a, b) =>
    match parseSub a, parseExp b with
    | some s, some e => some { sub := s, exp := e }
    | _, _ => none

/-- Model of the HMAC signature over the body: a function of algorithm,
secret and body.  Only equality of signatures matters to the development. -/
def macSig (secret alg : String) (body : List Char) : List Char :=
  alg.data ++ '/' :: secret.data ++ '/' :: body

/-- Model of jose jwt.encode: body, dot, signature. -/
def jwtEncode (secret alg : String) (p : Payload) : String :=
  String.mk (encodePayload p ++ '.' :: macSig secret alg (encodePayload p))

/-- Model of jose jwt.decode with the given current clock: split off the
signature at the first dot, check it, parse the body, then check the exp
claim; mirrors that jose verifies the signature before the claims and
raises ExpiredSignatureError exactly when exp is strictly in the past. -/
def jwtDecode (secret alg : String) (now : Nat) (tok : String) : Except JWTError Payload :=
  match splitFirst '.' tok.data with
  | none => Except.error JWTError.invalid
  | some (body, sig) =>
    if sig = macSig secret alg body then
      match parsePayload body with
      | none => Except.error JWTError.invalid
      | some p =>
        match p.exp with
        | none => Except.ok p
        | some e => if e < now then Except.error JWTError.expired else Except.ok p
    else Except.error JWTError.invalid

theorem parseSub_encodeSub (s : Option SubVal) : parseSub (encodeSub s) = some s := by
  cases s with
  | none => rfl
  | some v =>
    cases v with
    | str t =>
      show parseSub ('s' :: esc t.data) = some (some (SubVal.str t))
      rw [parseSub.eq_def]
      dsimp only
      rw [if_neg (by decide), if_pos rfl, unesc_esc]
      rfl
    | num i =>
      by_cases hneg : i < 0
      · rw [encodeSub, if_pos hneg, parseSub.eq_def]
        dsimp only
        rw [if_neg (by decide), if_neg (by decide), if_neg (by decide), if_pos rfl,
          readRev_digitsRevNat]
        show some (some (SubVal.num (-(i.natAbs : Int)))) = some (some (SubVal.num i))
        simp only [Option.some.injEq, SubVal.num.injEq]
        omega
      · rw [encodeSub, if_neg hneg, parseSub.eq_def]
        dsimp only
        rw [if_neg (by decide), if_neg (by decide), if_pos rfl, readRev_digitsRevNat]
        show some (some (SubVal.num ((i.natAbs : Int)))) = some (some (SubVal.num i))
        simp only [Option.some.injEq, SubVal.num.injEq]
        omega

theorem parseExp_encodeExp (e : Option Nat) : parseExp (encodeExp e) = some e := by
  cases e with
  | none => rfl
  | some n =>
    show parseExp ('e' :: digitsRevNat n) = some (some n)
    rw [parseExp.eq_def]
    dsimp only
    rw [if_neg (by decide), if_pos rfl, readRev_digitsRevNat]
    rfl

theorem bar_not_mem_encodeSub (s : Option SubVal) : '|' ∉ encodeSub s := by
  cases s with
  | none => simp [encodeSub]
  | some v =>
    cases v with
    | str t =>
      show '|' ∉ 's' :: esc t.data
      simp only [List.mem_cons]
      rintro (h | h)
      · exact absurd h (by decide)
      · exact bar_not_mem_esc _ h
    | num i =>
      have hdig : '|' ∉ digitsRevNat i.natAbs := by
        intro h
        obtain ⟨d, hd, hcd⟩ := mem_digitsRevAux _ _ _ h
        exact (digChar_not_special d hd).2.2.2.1 hcd.symm
      by_cases hneg : i < 0
      · rw [encodeSub, if_pos hneg]
        simp only [List.mem_cons]
        rintro (h | h)
        · exact absurd h (by decide)
        · exact hdig h
      · rw [encodeSub, if_neg hneg]
        simp only [List.mem_cons]
        rintro (h | h)
        · exact absurd h (by decide)
        · exact hdig h

theorem dot_not_mem_encodeSub (s : Option SubVal) : '.' ∉ encodeSub s := by
  cases s with
  | none => simp [encodeSub]
  | some v =>
    cases v with
    | str t =>
      show '.' ∉ 's' :: esc t.data
      simp only [List.mem_cons]
      rintro (h | h)
      · exact absurd h (by decide)
      · exact dot_not_mem_esc _ h
    | num i =>
      have hdig : '.' ∉ digitsRevNat i.natAbs := by
        intro h
        obtain ⟨d, hd, hcd⟩ := mem_digitsRevAux _ _ _ h
        exact (digChar_not_special d hd).2.2.1 hcd.symm
      by_cases hneg : i < 0
      · rw [encodeSub, if_pos hneg]
        simp only [List.mem_cons]
        rintro (h | h)
        · exact absurd h (by decide)
        · exact hdig h
      · rw [encodeSub, if_neg hneg]
        simp only [List.mem_cons]
        rintro (h | h)
        · exact absurd h (by decide)
        · exact hdig h

theorem dot_not_mem_encodeExp (e : Option Nat) : '.' ∉ encodeExp e := by
  cases e with
  | none => simp [encodeExp]
  | some n =>
    show '.' ∉ 'e' :: digitsRevNat n
    simp only [List.mem_cons]
    rintro (h | h)
    · exact absurd h (by decide)
    · obtain ⟨d, hd, hcd⟩ := mem_digitsRevAux _ _ _ h
      exact (digChar_not_special d hd).2.2.1 hcd.symm

theorem dot_not_mem_encodePayload (p : Payload) : '.' ∉ encodePayload p := by
  simp only [encodePayload, List.mem_append, List.mem_cons]
  rintro (h | h | h)
  · exact dot_not_mem_encodeSub _ h
  · exact absurd h (by decide)
  · exact dot_not_mem_encodeExp _ h

theorem parsePayload_encodePayload (p : Payload) : parsePayload (encodePayload p) = some p := by
  rw [parsePayload, encodePayload, splitFirst_append _ _ _ (bar_not_mem_encodeSub p.sub)]
  dsimp only
  rw [parseSub_encodeSub, parseExp_encodeExp]

theorem jwtDecode_jwtEncode (secret alg : String) (now : Nat) (p : Payload) :
    jwtDecode secret alg now (jwtEncode secret alg p) =
      (match p.exp with
       | none => Except.ok p
       | some e =>
         if e < now then Except.error JWTError.expired else Except.ok p) := by
  rw [jwtDecode, jwtEncode]
  rw [show (String.mk (encodePayload p ++ '.' :: macSig secret alg (encodePayload p))).data =
    encodePayload p ++ '.' :: macSig secret alg (encodePayload p) from rfl]
  rw [splitFirst_append _ _ _ (dot_not_mem_encodePayload p)]
  dsimp only
  rw [if_pos rfl, parsePayload_encodePayload]

/-! ## Passlib bcrypt model (src/auth/utils.py pwd_context) -/

/-- Model of the bcrypt digest: an executable function of rounds, salt and
password.  Characters of the password are rendered as comma-separated
decimal char codes, so the digest never holds a dollar sign. -/
def bcryptDigest (rounds salt : Nat) (pw : String) : List Char :=
  natStr rounds ++ ':' :: natStr salt ++ ':' ::
    pw.data.foldr (fun c acc => digitsRevNat c.toNat ++ ',' :: acc) []

/-- Model of the modular crypt format the CryptContext emits: dollar, scheme
tag, dollar, rounds, dollar, salt, dollar-free digest. -/
def parseBcrypt (h : String) : Option (Nat × Nat × List Char) :=
  match h.data with
  | '$' :: '2' :: 'b' :: '$' :: rest =>
    match splitFirst '$' rest with
    | none => none
    | some (roundsPart, rest2) =>
      match readDigitsMSD roundsPart with
      | none => none
      | some rounds =>
        match splitFirst '$' rest2 with
        | none => none
        | some (saltPart, digest) =>
          match readDigitsMSD saltPart with
          | none => none
          | some salt => some (rounds, salt, digest)
  | _ => none

/-- src/auth/utils.py get_password_hash: CryptContext.hash with
bcrypt rounds fixed at 12; the salt, random at run time, is the explicit
first parameter. -/
def get_password_hash (salt : Nat) (password : String) : String :=
  String.mk ('$' :: '2' :: 'b' :: '$' :: natStr 12 ++ '$' :: natStr salt ++ '$' ::
    bcryptDigest 12 salt password)

/-- src/auth/utils.py verify_password: CryptContext.verify recomputes the
digest with the parameters embedded in the stored hash and compares; on a
string that does not parse as a bcrypt hash it raises UnknownHashError,
modelled as the error branch. -/
def verify_password (plain_password hashed_password : String) : Except String Bool :=
  match parseBcrypt hashed_password with
  | none => Except.error "UnknownHashError"
  | some (rounds, salt, digest) => Except.ok (bcryptDigest rounds salt plain_password = digest)

/-! ## Configuration (src/core/config.py) -/

/-- src/core/config.py Settings: the JWT configuration constants. -/
structure Settings where
  SECRET_KEY : String
  ALGORITHM : String
  ACCESS_TOKEN_EXPIRE_MINUTES : Nat

/-- The module-level settings object with the default values of Settings
(SECRET_KEY from the environment defaulting as in the source, HS256,
30 minutes). -/
def settings : Settings :=
  { SECRET_KEY := "your-secret-key-change-in-production"
    ALGORITHM := "HS256"
    ACCESS_TOKEN_EXPIRE_MINUTES := 30 }

/-! ## Data model -/

/-- Modelled from the spec: the Account record of spec section 3 together
with the constructor calls in src/auth/router.py (the ORM model file
src/auth/models.py is not under src).  id is the integer primary key,
password holds the credential hash, is_active defaults true, timestamps
are epoch seconds. -/
structure User where
  id : Int
  username : String
  email : String
  full_name : String
  github_username : Option String
  password : String
  is_active : Bool
  created_at : Nat
  updated_at : Nat
deriving DecidableEq

/-- src/auth/schemas.py UserCreate: the registration request body.  The
pydantic validator requires confirm_password to equal password before the
handler runs. -/
structure UserCreate where
  username : String
  email : String
  full_name : String
  github_username : Option String
  password : String
  confirm_password : String
deriving DecidableEq

/-- The pydantic passwords-match validator on UserCreate. -/
def userCreateValid (u : UserCreate) : Bool := u.confirm_password = u.password

/-- src/auth/schemas.py User: the response view of an account.  It carries
no password field, so the credential hash never appears in a response
built from it. -/
structure UserView where
  username : String
  email : String
  full_name : String
  github_username : Option String
  id : Int
  is_active : Bool
  created_at : Nat
  updated_at : Nat
deriving DecidableEq

/-- The response-model projection a handler with response_model User
applies to an ORM row. -/
def toView (u : User) : UserView :=
  { username := u.username
    email := u.email
    full_name := u.full_name
    github_username := u.github_username
    id := u.id
    is_active := u.is_active
    created_at := u.created_at
    updated_at := u.updated_at }

/-- src/auth/schemas.py Token: the login and token endpoint response. -/
structure Token where
  access_token : String
  token_type : String
deriving DecidableEq

/-- A request outcome: an HTTPException carrying status, detail and extra
headers, or an uncaught exception named by its class (which the framework
turns into a generic server error). -/
inductive Failure where
  | http (statusCode : Nat) (detail : String) (headers : List (String × String))
  | exn (name : String)
deriving DecidableEq

/-! ## Store queries (SQLAlchemy query-filter-first on the session) -/

/-- db.query(User).filter(User.username == u).first() -/
def findByUsername (db : List User) (username : String) : Option User :=
  db.find? (fun u => u.username = username)

/-- db.query(User).filter(User.email == e).first() -/
def findByEmail (db : List User) (email : String) : Option User :=
  db.find? (fun u => u.email = email)

/-- db.query(User).filter(User.id == i).first() -/
def findById (db : List User) (i : Int) : Option User :=
  db.find? (fun u => u.id = i)

/-- The autoincrement primary key the store assigns on insert. -/
def nextId (db : List User) : Int :=
  (db.map (fun u => u.id)).foldr (fun a b => max a b) 0 + 1

/-! ## Token service (src/auth/utils.py) -/

/-- src/auth/utils.py create_access_token: copy the data claims, set exp to
now plus the configured TTL, and sign with the configured secret and
algorithm.  The clock and the configuration object are explicit. -/
def create_access_token (cfg : Settings) (now : Nat) (data : Payload) : String :=
  jwtEncode cfg.SECRET_KEY cfg.ALGORITHM
    { sub := data.sub, exp := some (now + 60 * cfg.ACCESS_TOKEN_EXPIRE_MINUTES) }

/-! ## Identity resolution (src/auth/dependencies.py) -/

/-- The 401 raised by the resolver when a presented token cannot be
validated. -/
def credentials_exception : Failure :=
  Failure.http 401 "Could not validate credentials" [("WWW-Authenticate", "Bearer")]

/-- The 403 FastAPI HTTPBearer with auto error raises before a dependent
body runs, when the request carries no usable Authorization header. -/
def notAuthenticated : Failure := Failure.http 403 "Not authenticated" []

/-- The isinstance dispatch on the decoded sub claim: a string goes through
int() with ValueError mapped to none, an int passes through. -/
def subToInt : SubVal → Option Int
  | SubVal.str s => pyIntOfString s
  | SubVal.num i => some i

/-- src/auth/dependencies.py get_current_user (the Required policy).
credentials is none when HTTPBearer found no usable Authorization header,
in which case it already raised 403; otherwise the body decodes the token,
coerces the sub claim to an integer id, and looks the account up, raising
credentials_exception on any failure.  The is_active flag is not read. -/
def get_current_user (cfg : Settings) (now : Nat) (db : List User)
    (credentials : Option String) : Except Failure User :=
  match credentials with
  | none => Except.error notAuthenticated
  | some tok =>
    match jwtDecode cfg.SECRET_KEY cfg.ALGORITHM now tok with
    | Except.error _ => Except.error credentials_exception
    | Except.ok payload =>
      match payload.sub with
      | none => Except.error credentials_exception
      | some sv =>
        match subToInt sv with
        | none => Except.error credentials_exception
        | some user_id =>
          match findById db user_id with
          | none => Except.error credentials_exception
          | some user => Except.ok user

/-- src/auth/dependencies.py get_optional_user (the Optional policy).
The body swallows every exception with a bare except and returns None, but
the HTTPBearer dependency still raises 403 before the body when no usable
Authorization header is present. -/
def get_optional_user (cfg : Settings) (now : Nat) (db : List User)
    (credentials : Option String) : Except Failure (Option User) :=
  match credentials with
  | none => Except.error notAuthenticated
  | some tok =>
    match jwtDecode cfg.SECRET_KEY cfg.ALGORITHM now tok with
    | Except.error _ => Except.ok none
    | Except.ok payload =>
      match payload.sub with
      | none => Except.ok none
      | some sv =>
        match subToInt sv with
        | none => Except.ok none
        | some user_id => Except.ok (findById db user_id)

/-- src/auth/dependencies.py get_active_user (the ActiveOnly policy):
delegate to get_current_user, then reject an inactive account with 403
Inactive user. -/
def get_active_user (cfg : Settings) (now : Nat) (db : List User)
    (credentials : Option String) : Except Failure User :=
  match get_current_user cfg now db credentials with
  | Except.error e => Except.error e
  | Except.ok user =>
    if user.is_active then Except.ok user
    else Except.error (Failure.http 403 "Inactive user" [])

/-! ## Account operations (src/auth/router.py) -/

/-- src/auth/router.py register: reject a taken username with 400
Username already registered, then a taken email with 400
Email already registered; otherwise hash the password (salt is the run
time randomness of bcrypt, made explicit), insert the row with the next
autoincrement id and the creation timestamps, and return the new store
contents with the response view of the row. -/
def register (db : List User) (salt : Nat) (now : Nat) (u : UserCreate) :
    Except Failure (List User × UserView) :=
  match findByUsername db u.username with
  | some _ => Except.error (Failure.http 400 "Username already registered" [])
  | none =>
    match findByEmail db u.email with
    | some _ => Except.error (Failure.http 400 "Email already registered" [])
    | none =>
      let db_user : User :=
        { id := nextId db
          username := u.username
          email := u.email
          full_name := u.full_name
          github_username := u.github_username
          password := get_password_hash salt u.password
          is_active := true
          created_at := now
          updated_at := now }
      Except.ok (db ++ [db_user], toView db_user)

/-- The uniform login failure: 401 with the same detail and headers for an
unknown username and for a wrong password. -/
def invalidLogin : Failure :=
  Failure.http 401 "Invalid username or password" [("WWW-Authenticate", "Bearer")]

/-- src/auth/router.py login: look the user up by username, verify the
password, and mint a bearer token whose sub claim is the username.  A
verification exception (malformed stored hash) propagates as an uncaught
exception. -/
def login (cfg : Settings) (now : Nat) (db : List User)
    (username password : String) : Except Failure Token :=
  match findByUsername db username with
  | none => Except.error invalidLogin
  | some user =>
    match verify_password password user.password with
    | Except.error e => Except.error (Failure.exn e)
    | Except.ok false => Except.error invalidLogin
    | Except.ok true =>
      Except.ok
        { access_token :=
            create_access_token cfg now { sub := some (SubVal.str user.username), exp := none }
          token_type := "bearer" }

/-- src/auth/router.py get_token: look the user up by the raw id taken
from the request, with no credential check of any kind, and mint a token
whose sub claim is str of the id; 404 when the id does not exist. -/
def get_token (cfg : Settings) (now : Nat) (db : List User) (user_id : Int) :
    Except Failure Token :=
  match findById db user_id with
  | none => Except.error (Failure.http 404 "User not found" [])
  | some user =>
    Except.ok
      { access_token :=
          create_access_token cfg now { sub := some (SubVal.str (pyStr user.id)), exp := none }
        token_type := "bearer" }

/-! ## Bridge lemmas -/

theorem jwtDecode_create_access_token (cfg : Settings) (t0 t1 : Nat) (data : Payload) :
    jwtDecode cfg.SECRET_KEY cfg.ALGORITHM t1 (create_access_token cfg t0 data) =
      (if t0 + 60 * cfg.ACCESS_TOKEN_EXPIRE_MINUTES < t1 then Except.error JWTError.expired
       else Except.ok
         { sub := data.sub, exp := some (t0 + 60 * cfg.ACCESS_TOKEN_EXPIRE_MINUTES) }) := by
  rw [create_access_token, jwtDecode_jwtEncode]

theorem get_current_user_minted (cfg : Settings) (now : Nat) (db : List User) (uid : Int) :
    get_current_user cfg now db
        (some (create_access_token cfg now { sub := some (SubVal.str (pyStr uid)), exp := none })) =
      (match findById db uid with
       | none => Except.error credentials_exception
       | some u => Except.ok u) := by
  rw [get_current_user.eq_def]
  dsimp only
  rw [jwtDecode_create_access_token, if_neg (by omega)]
  dsimp only [subToInt]
  rw [pyIntOfString_pyStr]

theorem get_current_user_decode_error (cfg : Settings) (now : Nat) (db : List User)
    (tok : String) (e : JWTError)
    (h : jwtDecode cfg.SECRET_KEY cfg.ALGORITHM now tok = Except.error e) :
    get_current_user cfg now db (some tok) = Except.error credentials_exception := by
  rw [get_current_user.eq_def]
  dsimp only
  rw [h]

/-! ## Concrete fixtures -/

/-- A concrete account: id 1, username alice, password pw1 hashed with
salt 7. -/
def alice : User :=
  { id := 1
    username := "alice"
    email := "a@x.com"
    full_name := "Alice"
    github_username := none
    password := get_password_hash 7 "pw1"
    is_active := true
    created_at := 0
    updated_at := 0 }

/-- The registration request of the end-to-end scenario. -/
def aliceCreate : UserCreate :=
  { username := "alice"
    email := "a@x.com"
    full_name := "Alice"
    github_username := none
    password := "pw1"
    confirm_password := "pw1" }

/-- The token the login operation mints for alice at clock 0. -/
def aliceToken : String :=
  create_access_token settings 0 { sub := some (SubVal.str "alice"), exp := none }

/-- A concrete inactive account with id 1. -/
def bobInactive : User :=
  { id := 1
    username := "bob"
    email := "b@x.com"
    full_name := "Bob"
    github_username := none
    password := get_password_hash 3 "pw2"
    is_active := false
    created_at := 0
    updated_at := 0 }

/-- Claim C1: the spec states that a successful login mints a token whose
sub claim is the account id rendered as a decimal string.  Evaluating the
code on a store with one account shows login embeds the username alice as
the sub claim, while the account id renders as 1: the subject is the
username, not the stringified id. -/
theorem C1_login_mints_username_subject :
    login settings 0 [alice] "alice" "pw1" =
      Except.ok { access_token := aliceToken, token_type := "bearer" } ∧
    jwtDecode settings.SECRET_KEY settings.ALGORITHM 0 aliceToken =
      Except.ok { sub := some (SubVal.str "alice"), exp := some 1800 } ∧
    pyStr alice.id = "1" ∧ "alice" ≠ "1" :=
  ⟨rfl, rfl, rfl, by decide⟩

/-- Claim C2: the end-to-end scenario.  Registration succeeds and returns
id 1, login succeeds and returns a token, and the tampered token fails
with 401, as the claim states; but presenting the genuine token to the
Required policy also fails with 401 instead of resolving to the account,
because login embedded the username alice as the sub claim and the
resolver requires a decimal integer there. -/
theorem C2_end_to_end_scenario :
    userCreateValid aliceCreate = true ∧
    register [] 7 0 aliceCreate = Except.ok ([alice], toView alice) ∧
    (toView alice).id = 1 ∧
    login settings 0 [alice] "alice" "pw1" =
      Except.ok { access_token := aliceToken, token_type := "bearer" } ∧
    get_current_user settings 0 [alice] (some aliceToken) =
      Except.error credentials_exception ∧
    get_current_user settings 0 [alice] (some (aliceToken ++ "x")) =
      Except.error credentials_exception :=
  ⟨rfl, rfl, rfl, rfl, rfl, rfl⟩

/-- Claim C3: the spec states the Optional policy never rejects, resolving
to no identity on every input including a missing token.  The body indeed
swallows every failure once it runs (second conjunct: any supplied token
yields an ok result), but with no token the HTTPBearer dependency rejects
the request with 403 Not authenticated before the body runs (first
conjunct), contradicting the claim for the no-token input. -/
theorem C3_optional_rejects_missing_token (cfg : Settings) (now : Nat)
    (db : List User) (tok : String) :
    get_optional_user cfg now db none = Except.error notAuthenticated ∧
    ∃ r, get_optional_user cfg now db (some tok) = Except.ok r := by
  constructor
  · rfl
  · cases hdec : jwtDecode cfg.SECRET_KEY cfg.ALGORITHM now tok with
    | error e =>
      refine ⟨none, ?_⟩
      rw [get_optional_user.eq_def]
      dsimp only
      rw [hdec]
    | ok payload =>
      cases hsub : payload.sub with
      | none =>
        refine ⟨none, ?_⟩
        rw [get_optional_user.eq_def]
        dsimp only
        rw [hdec]
        dsimp only
        rw [hsub]
      | some sv =>
        cases hint : subToInt sv with
        | none =>
          refine ⟨none, ?_⟩
          rw [get_optional_user.eq_def]
          dsimp only
          rw [hdec]
          dsimp only
          rw [hsub]
          dsimp only
          rw [hint]
        | some uid =>
          refine ⟨findById db uid, ?_⟩
          rw [get_optional_user.eq_def]
          dsimp only
          rw [hdec]
          dsimp only
          rw [hsub]
          dsimp only
          rw [hint]

/-- Claim C4 counterexample: the claim states credential verification
returns false on a malformed stored hash and never throws; on the
malformed hash nothash the code raises UnknownHashError instead of
returning false. -/
theorem C4_cx_verify_throws_on_malformed :
    verify_password "pw" "nothash" = Except.error "UnknownHashError" ∧
    verify_password "pw" "nothash" ≠ Except.ok false :=
  ⟨rfl, fun h => Except.noConfusion h⟩

/-- Claim C4 amended: on a stored string that does not parse as a bcrypt
hash, verification raises UnknownHashError (it does not return false); on
a well-formed hash it returns the boolean digest comparison without
throwing. -/
theorem C4_verify_behavior (plain h : String) :
    (parseBcrypt h = none →
      verify_password plain h = Except.error "UnknownHashError") ∧
    (∀ rounds salt digest, parseBcrypt h = some (rounds, salt, digest) →
      verify_password plain h =
        Except.ok (decide (bcryptDigest rounds salt plain = digest))) := by
  constructor
  · intro hm
    unfold verify_password
    rw [hm]
  · intro rounds salt digest hm
    unfold verify_password
    rw [hm]

/-- Witness for C4: a well-formed stored hash of pw1 verifies pw1 to true
without an error. -/
theorem C4_witness : verify_password "pw1" (get_password_hash 3 "pw1") = Except.ok true :=
  ((C4_verify_behavior "pw1" (get_password_hash 3 "pw1")).2 12 3
    (bcryptDigest 12 3 "pw1") rfl).trans rfl

/-- Claim C5: minting a token for subject s at clock t0 and verifying it at
t0 yields the payload with subject s back; verifying it at any clock
strictly past t0 plus the configured TTL fails with the expiry-classified
error; and the TTL configuration constant defaults to 30 minutes. -/
theorem C5_mint_verify_roundtrip_and_expiry (cfg : Settings) (s : String) (t0 t1 : Nat) :
    jwtDecode cfg.SECRET_KEY cfg.ALGORITHM t0
        (create_access_token cfg t0 { sub := some (SubVal.str s), exp := none }) =
      Except.ok
        { sub := some (SubVal.str s)
          exp := some (t0 + 60 * cfg.ACCESS_TOKEN_EXPIRE_MINUTES) } ∧
    (t0 + 60 * cfg.ACCESS_TOKEN_EXPIRE_MINUTES < t1 →
      jwtDecode cfg.SECRET_KEY cfg.ALGORITHM t1
          (create_access_token cfg t0 { sub := some (SubVal.str s), exp := none }) =
        Except.error JWTError.expired) ∧
    settings.ACCESS_TOKEN_EXPIRE_MINUTES = 30 := by
  refine ⟨?_, ?_, rfl⟩
  · rw [jwtDecode_create_access_token, if_neg (by omega)]
  · intro hexp
    rw [jwtDecode_create_access_token, if_pos hexp]

/-- Witness for C5: the token minted for subject 7 at clock 0 with the
default settings is expired at clock 1801. -/
theorem C5_witness :
    jwtDecode settings.SECRET_KEY settings.ALGORITHM 1801
        (create_access_token settings 0 { sub := some (SubVal.str "7"), exp := none }) =
      Except.error JWTError.expired :=
  (C5_mint_verify_roundtrip_and_expiry settings "7" 0 1801).2.1 (by decide)

/-- Claim C6: the Required policy fails with no token; a valid token whose
subject names a nonexistent account fails with 401; and a valid token for
an existing but inactive account resolves to the account, the is_active
flag not being consulted. -/
theorem C6_required_policy (cfg : Settings) (now : Nat) (db : List User)
    (uid : Int) (u : User) :
    get_current_user cfg now db none = Except.error notAuthenticated ∧
    (findById db uid = none →
      get_current_user cfg now db
          (some (create_access_token cfg now
            { sub := some (SubVal.str (pyStr uid)), exp := none })) =
        Except.error credentials_exception) ∧
    (findById db uid = some u → u.is_active = false →
      get_current_user cfg now db
          (some (create_access_token cfg now
            { sub := some (SubVal.str (pyStr uid)), exp := none })) =
        Except.ok u) := by
  refine ⟨rfl, ?_, ?_⟩
  · intro h
    rw [get_current_user_minted, h]
  · intro h _
    rw [get_current_user_minted, h]

/-- Witness for C6: a valid token for the inactive account bobInactive
resolves to it under the Required policy. -/
theorem C6_witness :
    get_current_user settings 0 [bobInactive]
        (some (create_access_token settings 0
          { sub := some (SubVal.str (pyStr 1)), exp := none })) =
      Except.ok bobInactive :=
  (C6_required_policy settings 0 [bobInactive] 1 bobInactive).2.2 rfl rfl

/-- Claim C7 counterexample: the claim states the Forbidden inactive-user
error is distinct from the Unauthorized error produced when no token is
presented; in the code a missing token is rejected by HTTPBearer with
status 403 Not authenticated, not 401 Unauthorized, so the no-token error
shares its 403 status with the Inactive user error. -/
theorem C7_cx_no_token_is_403 :
    get_active_user settings 0 [bobInactive] none =
      Except.error (Failure.http 403 "Not authenticated" []) ∧
    get_active_user settings 0 [bobInactive]
        (some (create_access_token settings 0
          { sub := some (SubVal.str "1"), exp := none })) =
      Except.error (Failure.http 403 "Inactive user" []) ∧
    (403 : Nat) ≠ 401 :=
  ⟨rfl, rfl, by decide⟩

/-- Claim C7 amended: under the ActiveOnly policy a valid token for an
existing inactive account fails with 403 Inactive user, distinct from the
401 Could not validate credentials raised for an invalid token; a missing
token is rejected with 403 Not authenticated (same status as the inactive
error, different message), not with Unauthorized; a valid token for an
active account resolves to it. -/
theorem C7_active_only_policy (cfg : Settings) (now : Nat) (db : List User)
    (uid : Int) (u : User) (tok : String) (e : JWTError) :
    (findById db uid = some u → u.is_active = false →
      get_active_user cfg now db
          (some (create_access_token cfg now
            { sub := some (SubVal.str (pyStr uid)), exp := none })) =
        Except.error (Failure.http 403 "Inactive user" [])) ∧
    (jwtDecode cfg.SECRET_KEY cfg.ALGORITHM now tok = Except.error e →
      get_active_user cfg now db (some tok) = Except.error credentials_exception) ∧
    get_active_user cfg now db none = Except.error notAuthenticated ∧
    (findById db uid = some u → u.is_active = true →
      get_active_user cfg now db
          (some (create_access_token cfg now
            { sub := some (SubVal.str (pyStr uid)), exp := none })) =
        Except.ok u) := by
  refine ⟨?_, ?_, rfl, ?_⟩
  · intro h hin
    unfold get_active_user
    rw [get_current_user_minted, h]
    dsimp only
    rw [hin]
    rfl
  · intro h
    unfold get_active_user
    rw [get_current_user_decode_error cfg now db tok e h]
  · intro h hact
    unfold get_active_user
    rw [get_current_user_minted, h]
    dsimp only
    rw [hact]
    rfl

/-- Witness for C7: the inactive account bobInactive with a valid token is
rejected by the ActiveOnly policy with 403 Inactive user. -/
theorem C7_witness :
    get_active_user settings 0 [bobInactive]
        (some (create_access_token settings 0
          { sub := some (SubVal.str (pyStr 1)), exp := none })) =
      Except.error (Failure.http 403 "Inactive user" []) :=
  (C7_active_only_policy settings 0 [bobInactive] 1 bobInactive "" JWTError.invalid).1
    rfl rfl

/-- Claim C8: a login with an unknown username and a login with a known
username but wrong password surface the identical failure: same status,
same detail, same headers. -/
theorem C8_login_failures_identical (cfg : Settings) (now : Nat) (db : List User)
    (u1 p1 u2 p2 : String) (user : User)
    (h1 : findByUsername db u1 = none)
    (h2 : findByUsername db u2 = some user)
    (h3 : verify_password p2 user.password = Except.ok false) :
    login cfg now db u1 p1 =
      Except.error
        (Failure.http 401 "Invalid username or password" [("WWW-Authenticate", "Bearer")]) ∧
    login cfg now db u2 p2 =
      Except.error
        (Failure.http 401 "Invalid username or password" [("WWW-Authenticate", "Bearer")]) ∧
    login cfg now db u1 p1 = login cfg now db u2 p2 := by
  have ha : login cfg now db u1 p1 = Except.error invalidLogin := by
    unfold login
    rw [h1]
  have hb : login cfg now db u2 p2 = Except.error invalidLogin := by
    unfold login
    rw [h2]
    dsimp only
    rw [h3]
  exact ⟨ha, hb, ha.trans hb.symm⟩

/-- Witness for C8: on a store holding only alice, the login for the
unknown username bob and the login for alice with a wrong password both
yield the one invalid-login error. -/
theorem C8_witness :
    login settings 0 [alice] "bob" "pw1" =
      Except.error
        (Failure.http 401 "Invalid username or password" [("WWW-Authenticate", "Bearer")]) ∧
    login settings 0 [alice] "alice" "wrong" =
      Except.error
        (Failure.http 401 "Invalid username or password" [("WWW-Authenticate", "Bearer")]) ∧
    login settings 0 [alice] "bob" "pw1" = login settings 0 [alice] "alice" "wrong" :=
  C8_login_failures_identical settings 0 [alice] "bob" "pw1" "alice" "wrong" alice
    rfl rfl rfl

/-- The row register inserts when both uniqueness checks pass. -/
def registeredUser (db : List User) (salt now : Nat) (u : UserCreate) : User :=
  { id := nextId db
    username := u.username
    email := u.email
    full_name := u.full_name
    github_username := u.github_username
    password := get_password_hash salt u.password
    is_active := true
    created_at := now
    updated_at := now }

/-- Claim C9 counterexample: the claim states registration of a taken
username fails with Conflict; the code fails with status 400 Bad Request
(detail Username already registered), and 400 is not the Conflict
status 409. -/
theorem C9_cx_register_is_400 :
    register [alice] 5 0
        { username := "alice"
          email := "n@x.com"
          full_name := "New"
          github_username := none
          password := "pw"
          confirm_password := "pw" } =
      Except.error (Failure.http 400 "Username already registered" []) ∧
    (400 : Nat) ≠ 409 :=
  ⟨rfl, by decide⟩

/-- Claim C9 amended: registration fails with 400 Username already
registered when the username is taken (checked first), otherwise with 400
Email already registered when the email is taken; on success it hashes the
password, appends the new row, and returns the response view of the row,
which carries no credential-hash field. -/
theorem C9_register_behavior (db : List User) (salt now : Nat) (u : UserCreate)
    (w : User) :
    (findByUsername db u.username = some w →
      register db salt now u =
        Except.error (Failure.http 400 "Username already registered" [])) ∧
    (findByUsername db u.username = none → findByEmail db u.email = some w →
      register db salt now u =
        Except.error (Failure.http 400 "Email already registered" [])) ∧
    (findByUsername db u.username = none → findByEmail db u.email = none →
      register db salt now u =
        Except.ok (db ++ [registeredUser db salt now u],
          toView (registeredUser db salt now u))) := by
  refine ⟨?_, ?_, ?_⟩
  · intro h
    unfold register
    rw [h]
  · intro h1 h2
    unfold register
    rw [h1]
    dsimp only
    rw [h2]
  · intro h1 h2
    unfold register
    rw [h1]
    dsimp only
    rw [h2]
    rfl

/-- Witness for C9: registering alice against the empty store succeeds and
returns the inserted row and its view. -/
theorem C9_witness :
    register [] 7 0 aliceCreate =
      Except.ok ([registeredUser [] 7 0 aliceCreate],
        toView (registeredUser [] 7 0 aliceCreate)) :=
  (C9_register_behavior [] 7 0 aliceCreate alice).2.2 rfl rfl

/-- Claim C10: the token endpoint takes a raw account id with no
credential of any kind: when the id exists it mints and returns a token
whose sub claim is the id rendered in decimal, the token verifies at mint
time to that subject, and the Required policy resolves it back to the
account; when the id does not exist it fails with 404 User not found. -/
theorem C10_token_endpoint (cfg : Settings) (now : Nat) (db : List User)
    (uid : Int) (u : User) :
    (findById db uid = none →
      get_token cfg now db uid =
        Except.error (Failure.http 404 "User not found" [])) ∧
    (findById db uid = some u →
      get_token cfg now db uid =
        Except.ok
          { access_token :=
              create_access_token cfg now
                { sub := some (SubVal.str (pyStr u.id)), exp := none }
            token_type := "bearer" } ∧
      jwtDecode cfg.SECRET_KEY cfg.ALGORITHM now
          (create_access_token cfg now
            { sub := some (SubVal.str (pyStr u.id)), exp := none }) =
        Except.ok
          { sub := some (SubVal.str (pyStr u.id))
            exp := some (now + 60 * cfg.ACCESS_TOKEN_EXPIRE_MINUTES) } ∧
      get_current_user cfg now db
          (some (create_access_token cfg now
            { sub := some (SubVal.str (pyStr u.id)), exp := none })) =
        Except.ok u) := by
  constructor
  · intro h
    unfold get_token
    rw [h]
  · intro h
    have hid : u.id = uid := by
      have := List.find?_some h
      simpa using this
    refine ⟨?_, ?_, ?_⟩
    · unfold get_token
      rw [h]
    · rw [jwtDecode_create_access_token, if_neg (by omega)]
    · rw [get_current_user_minted, hid, h]

/-- Witness for C10: with alice in the store, the token endpoint mints a
token for the raw id 1 that the Required policy resolves back to alice. -/
theorem C10_witness :
    get_token settings 0 [alice] 1 =
      Except.ok
        { access_token :=
            create_access_token settings 0
              { sub := some (SubVal.str (pyStr alice.id)), exp := none }
          token_type := "bearer" } ∧
    get_current_user settings 0 [alice]
        (some (create_access_token settings 0
          { sub := some (SubVal.str (pyStr alice.id)), exp := none })) =
      Except.ok alice :=
  ⟨((C10_token_endpoint settings 0 [alice] 1 alice).2 rfl).1,
   ((C10_token_endpoint settings 0 [alice] 1 alice).2 rfl).2.2⟩
